import Mathlib

/-!
Shallow embedding of the command-builder utilities of this repository:
`VacuumDbBuilder` (src/postgresql_embedded/src/command/vacuumdb.rs) and
`PgTestTimingBuilder` (src/postgresql_embedded/src/command/pg_test_timing.rs).

Modelling conventions: `OsString` and `PathBuf` are modelled as `String`;
`u32` and `u16` are modelled as `Nat` (no arithmetic is ever performed on
them — they are only rendered in decimal, which `Nat.repr` does, matching
Rust's `to_string`).  Each `if … { args.push(…) }` block of the Rust
`get_args` body becomes one list segment, concatenated in source order.
-/

namespace PostgresqlEmbedded

/-- Struct `VacuumDbBuilder` of vacuumdb.rs: one field per option, every
field defaulting to unset/false exactly as Rust `#[derive(Default)]` does. -/
structure VacuumDbBuilder where
  program_dir : Option String := none
  all : Bool := false
  buffer_usage_limit : Option String := none
  dbname : Option String := none
  disable_page_skipping : Bool := false
  echo : Bool := false
  full : Bool := false
  freeze : Bool := false
  force_index_cleanup : Bool := false
  jobs : Option Nat := none
  min_mxid_age : Option String := none
  min_xid_age : Option String := none
  no_index_cleanup : Bool := false
  no_process_main : Bool := false
  no_process_toast : Bool := false
  no_truncate : Bool := false
  schema : Option String := none
  exclude_schema : Option String := none
  parallel : Option Nat := none
  quiet : Bool := false
  skip_locked : Bool := false
  table : Option String := none
  verbose : Bool := false
  version : Bool := false
  analyze : Bool := false
  analyze_only : Bool := false
  analyze_in_stages : Bool := false
  help : Bool := false
  host : Option String := none
  port : Option Nat := none
  username : Option String := none
  no_password : Bool := false
  password : Bool := false
  maintenance_db : Option String := none
deriving DecidableEq

/-- Constructor `VacuumDbBuilder::new`, which is `Self::default()`. -/
def VacuumDbBuilder.new : VacuumDbBuilder := {}

/- Fluent setters of `VacuumDbBuilder` (vacuumdb.rs lines 52-254).  Rust names
each setter identically to the field it sets; Lean cannot reuse the projection
name, so every setter carries a prime. -/

def VacuumDbBuilder.program_dir' (b : VacuumDbBuilder) (path : String) : VacuumDbBuilder :=
  { b with program_dir := some path }

def VacuumDbBuilder.all' (b : VacuumDbBuilder) : VacuumDbBuilder :=
  { b with all := true }

def VacuumDbBuilder.buffer_usage_limit' (b : VacuumDbBuilder) (v : String) : VacuumDbBuilder :=
  { b with buffer_usage_limit := some v }

def VacuumDbBuilder.dbname' (b : VacuumDbBuilder) (v : String) : VacuumDbBuilder :=
  { b with dbname := some v }

def VacuumDbBuilder.disable_page_skipping' (b : VacuumDbBuilder) : VacuumDbBuilder :=
  { b with disable_page_skipping := true }

def VacuumDbBuilder.echo' (b : VacuumDbBuilder) : VacuumDbBuilder :=
  { b with echo := true }

def VacuumDbBuilder.full' (b : VacuumDbBuilder) : VacuumDbBuilder :=
  { b with full := true }

def VacuumDbBuilder.freeze' (b : VacuumDbBuilder) : VacuumDbBuilder :=
  { b with freeze := true }

def VacuumDbBuilder.force_index_cleanup' (b : VacuumDbBuilder) : VacuumDbBuilder :=
  { b with force_index_cleanup := true }

def VacuumDbBuilder.jobs' (b : VacuumDbBuilder) (v : Nat) : VacuumDbBuilder :=
  { b with jobs := some v }

def VacuumDbBuilder.min_mxid_age' (b : VacuumDbBuilder) (v : String) : VacuumDbBuilder :=
  { b with min_mxid_age := some v }

def VacuumDbBuilder.min_xid_age' (b : VacuumDbBuilder) (v : String) : VacuumDbBuilder :=
  { b with min_xid_age := some v }

def VacuumDbBuilder.no_index_cleanup' (b : VacuumDbBuilder) : VacuumDbBuilder :=
  { b with no_index_cleanup := true }

def VacuumDbBuilder.no_process_main' (b : VacuumDbBuilder) : VacuumDbBuilder :=
  { b with no_process_main := true }

def VacuumDbBuilder.no_process_toast' (b : VacuumDbBuilder) : VacuumDbBuilder :=
  { b with no_process_toast := true }

def VacuumDbBuilder.no_truncate' (b : VacuumDbBuilder) : VacuumDbBuilder :=
  { b with no_truncate := true }

def VacuumDbBuilder.schema' (b : VacuumDbBuilder) (v : String) : VacuumDbBuilder :=
  { b with schema := some v }

def VacuumDbBuilder.exclude_schema' (b : VacuumDbBuilder) (v : String) : VacuumDbBuilder :=
  { b with exclude_schema := some v }

def VacuumDbBuilder.parallel' (b : VacuumDbBuilder) (v : Nat) : VacuumDbBuilder :=
  { b with parallel := some v }

def VacuumDbBuilder.quiet' (b : VacuumDbBuilder) : VacuumDbBuilder :=
  { b with quiet := true }

def VacuumDbBuilder.skip_locked' (b : VacuumDbBuilder) : VacuumDbBuilder :=
  { b with skip_locked := true }

def VacuumDbBuilder.table' (b : VacuumDbBuilder) (v : String) : VacuumDbBuilder :=
  { b with table := some v }

def VacuumDbBuilder.verbose' (b : VacuumDbBuilder) : VacuumDbBuilder :=
  { b with verbose := true }

def VacuumDbBuilder.version' (b : VacuumDbBuilder) : VacuumDbBuilder :=
  { b with version := true }

def VacuumDbBuilder.analyze' (b : VacuumDbBuilder) : VacuumDbBuilder :=
  { b with analyze := true }

def VacuumDbBuilder.analyze_only' (b : VacuumDbBuilder) : VacuumDbBuilder :=
  { b with analyze_only := true }

def VacuumDbBuilder.analyze_in_stages' (b : VacuumDbBuilder) : VacuumDbBuilder :=
  { b with analyze_in_stages := true }

def VacuumDbBuilder.help' (b : VacuumDbBuilder) : VacuumDbBuilder :=
  { b with help := true }

def VacuumDbBuilder.host' (b : VacuumDbBuilder) (v : String) : VacuumDbBuilder :=
  { b with host := some v }

def VacuumDbBuilder.port' (b : VacuumDbBuilder) (v : Nat) : VacuumDbBuilder :=
  { b with port := some v }

def VacuumDbBuilder.username' (b : VacuumDbBuilder) (v : String) : VacuumDbBuilder :=
  { b with username := some v }

def VacuumDbBuilder.no_password' (b : VacuumDbBuilder) : VacuumDbBuilder :=
  { b with no_password := true }

def VacuumDbBuilder.password' (b : VacuumDbBuilder) : VacuumDbBuilder :=
  { b with password := true }

def VacuumDbBuilder.maintenance_db' (b : VacuumDbBuilder) (v : String) : VacuumDbBuilder :=
  { b with maintenance_db := some v }

/-- Segment emitted for a boolean option: the Rust pattern
`if b.field { args.push(flag) }`. -/
def flagArgs (b : Bool) (flag : String) : List String :=
  if b then [flag] else []

/-- Segment emitted for an `Option<OsString>` option: the Rust pattern
`if let Some(v) = &b.field { args.push(flag); args.push(v) }`. -/
def optArgs (o : Option String) (flag : String) : List String :=
  match o with
  | some v => [flag, v]
  | none => []

/-- Segment emitted for a numeric option (`Option<u32>` / `Option<u16>`):
the Rust pattern pushes the flag and then `v.to_string()`, the decimal
rendering, which `Nat.repr` is. -/
def natArgs (o : Option Nat) (flag : String) : List String :=
  match o with
  | some v => [flag, Nat.repr v]
  | none => []

/-- Translation of `VacuumDbBuilder::get_args` (vacuumdb.rs lines 269-418):
the if/push blocks of the Rust body, one segment per option, concatenated in
the order the source checks them. -/
def VacuumDbBuilder.get_args (b : VacuumDbBuilder) : List String :=
  flagArgs b.all ("--all")
    ++ optArgs b.buffer_usage_limit ("--buffer-usage-limit")
    ++ optArgs b.dbname ("--dbname")
    ++ flagArgs b.disable_page_skipping ("--disable-page-skipping")
    ++ flagArgs b.echo ("--echo")
    ++ flagArgs b.full ("--full")
    ++ flagArgs b.freeze ("--freeze")
    ++ flagArgs b.force_index_cleanup ("--force-index-cleanup")
    ++ natArgs b.jobs ("--jobs")
    ++ optArgs b.min_mxid_age ("--min-mxid-age")
    ++ optArgs b.min_xid_age ("--min-xid-age")
    ++ flagArgs b.no_index_cleanup ("--no-index-cleanup")
    ++ flagArgs b.no_process_main ("--no-process-main")
    ++ flagArgs b.no_process_toast ("--no-process-toast")
    ++ flagArgs b.no_truncate ("--no-truncate")
    ++ optArgs b.schema ("--schema")
    ++ optArgs b.exclude_schema ("--exclude-schema")
    ++ natArgs b.parallel ("--parallel")
    ++ flagArgs b.quiet ("--quiet")
    ++ flagArgs b.skip_locked ("--skip-locked")
    ++ optArgs b.table ("--table")
    ++ flagArgs b.verbose ("--verbose")
    ++ flagArgs b.version ("--version")
    ++ flagArgs b.analyze ("--analyze")
    ++ flagArgs b.analyze_only ("--analyze-only")
    ++ flagArgs b.analyze_in_stages ("--analyze-in-stages")
    ++ flagArgs b.help ("--help")
    ++ optArgs b.host ("--host")
    ++ natArgs b.port ("--port")
    ++ optArgs b.username ("--username")
    ++ flagArgs b.no_password ("--no-password")
    ++ flagArgs b.password ("--password")
    ++ optArgs b.maintenance_db ("--maintenance-db")

/-- Translation of `VacuumDbBuilder::get_program`: the constant "vacuumdb". -/
def VacuumDbBuilder.get_program (_ : VacuumDbBuilder) : String :=
  "vacuumdb"

/-- Translation of `VacuumDbBuilder::get_program_dir`. -/
def VacuumDbBuilder.get_program_dir (b : VacuumDbBuilder) : Option String :=
  b.program_dir

/-- Struct `PgTestTimingBuilder` of pg_test_timing.rs. -/
structure PgTestTimingBuilder where
  program_dir : Option String := none
  duration : Option String := none
deriving DecidableEq

/-- Constructor `PgTestTimingBuilder::new`, which is `Self::default()`. -/
def PgTestTimingBuilder.new : PgTestTimingBuilder := {}

def PgTestTimingBuilder.program_dir' (b : PgTestTimingBuilder) (path : String) : PgTestTimingBuilder :=
  { b with program_dir := some path }

def PgTestTimingBuilder.duration' (b : PgTestTimingBuilder) (v : String) : PgTestTimingBuilder :=
  { b with duration := some v }

/-- Translation of `PgTestTimingBuilder::get_args` (pg_test_timing.rs
lines 44-53): only the duration option, emitted as "-d" plus its value. -/
def PgTestTimingBuilder.get_args (b : PgTestTimingBuilder) : List String :=
  optArgs b.duration ("-d")

/-- Translation of `PgTestTimingBuilder::get_program`: the constant
"pg_test_timing". -/
def PgTestTimingBuilder.get_program (_ : PgTestTimingBuilder) : String :=
  "pg_test_timing"

/-- Translation of `PgTestTimingBuilder::get_program_dir`. -/
def PgTestTimingBuilder.get_program_dir (b : PgTestTimingBuilder) : Option String :=
  b.program_dir

/-- One fluent setter invocation on `VacuumDbBuilder`: one constructor per
setter, valued setters carrying their argument. -/
inductive SetterCall where
  | program_dir (p : String)
  | all
  | buffer_usage_limit (v : String)
  | dbname (v : String)
  | disable_page_skipping
  | echo
  | full
  | freeze
  | force_index_cleanup
  | jobs (v : Nat)
  | min_mxid_age (v : String)
  | min_xid_age (v : String)
  | no_index_cleanup
  | no_process_main
  | no_process_toast
  | no_truncate
  | schema (v : String)
  | exclude_schema (v : String)
  | parallel (v : Nat)
  | quiet
  | skip_locked
  | table (v : String)
  | verbose
  | version
  | analyze
  | analyze_only
  | analyze_in_stages
  | help
  | host (v : String)
  | port (v : Nat)
  | username (v : String)
  | no_password
  | password
  | maintenance_db (v : String)
deriving DecidableEq

/-- Applies one setter call to a builder, dispatching to the setter it names. -/
def applyCall : SetterCall → VacuumDbBuilder → VacuumDbBuilder
  | .program_dir p, b => b.program_dir' p
  | .all, b => b.all'
  | .buffer_usage_limit v, b => b.buffer_usage_limit' v
  | .dbname v, b => b.dbname' v
  | .disable_page_skipping, b => b.disable_page_skipping'
  | .echo, b => b.echo'
  | .full, b => b.full'
  | .freeze, b => b.freeze'
  | .force_index_cleanup, b => b.force_index_cleanup'
  | .jobs v, b => b.jobs' v
  | .min_mxid_age v, b => b.min_mxid_age' v
  | .min_xid_age v, b => b.min_xid_age' v
  | .no_index_cleanup, b => b.no_index_cleanup'
  | .no_process_main, b => b.no_process_main'
  | .no_process_toast, b => b.no_process_toast'
  | .no_truncate, b => b.no_truncate'
  | .schema v, b => b.schema' v
  | .exclude_schema v, b => b.exclude_schema' v
  | .parallel v, b => b.parallel' v
  | .quiet, b => b.quiet'
  | .skip_locked, b => b.skip_locked'
  | .table v, b => b.table' v
  | .verbose, b => b.verbose'
  | .version, b => b.version'
  | .analyze, b => b.analyze'
  | .analyze_only, b => b.analyze_only'
  | .analyze_in_stages, b => b.analyze_in_stages'
  | .help, b => b.help'
  | .host v, b => b.host' v
  | .port v, b => b.port' v
  | .username v, b => b.username' v
  | .no_password, b => b.no_password'
  | .password, b => b.password'
  | .maintenance_db v, b => b.maintenance_db' v

/-- Applies a sequence of fluent setter calls, first element first — the shape
of a Rust `b.f().g().h()` chain read left to right. -/
def applyCalls (b : VacuumDbBuilder) (s : List SetterCall) : VacuumDbBuilder :=
  s.foldl (fun b c => applyCall c b) b

/-- Index of the field a setter call writes, in struct declaration order
(0 = program_dir … 33 = maintenance_db). -/
def callIndex : SetterCall → Nat
  | .program_dir _ => 0
  | .all => 1
  | .buffer_usage_limit _ => 2
  | .dbname _ => 3
  | .disable_page_skipping => 4
  | .echo => 5
  | .full => 6
  | .freeze => 7
  | .force_index_cleanup => 8
  | .jobs _ => 9
  | .min_mxid_age _ => 10
  | .min_xid_age _ => 11
  | .no_index_cleanup => 12
  | .no_process_main => 13
  | .no_process_toast => 14
  | .no_truncate => 15
  | .schema _ => 16
  | .exclude_schema _ => 17
  | .parallel _ => 18
  | .quiet => 19
  | .skip_locked => 20
  | .table _ => 21
  | .verbose => 22
  | .version => 23
  | .analyze => 24
  | .analyze_only => 25
  | .analyze_in_stages => 26
  | .help => 27
  | .host _ => 28
  | .port _ => 29
  | .username _ => 30
  | .no_password => 31
  | .password => 32
  | .maintenance_db _ => 33

/-- Value of one builder field, uniformly encoded so the 34 fields can be
listed together. -/
inductive FieldValue where
  | str : Option String → FieldValue
  | flag : Bool → FieldValue
  | num : Option Nat → FieldValue
deriving DecidableEq

/-- All 34 fields of a `VacuumDbBuilder`, in struct declaration order
(the order `callIndex` indexes). -/
def fieldsList (b : VacuumDbBuilder) : List FieldValue :=
  [.str b.program_dir, .flag b.all, .str b.buffer_usage_limit, .str b.dbname,
   .flag b.disable_page_skipping, .flag b.echo, .flag b.full, .flag b.freeze,
   .flag b.force_index_cleanup, .num b.jobs, .str b.min_mxid_age,
   .str b.min_xid_age, .flag b.no_index_cleanup, .flag b.no_process_main,
   .flag b.no_process_toast, .flag b.no_truncate, .str b.schema,
   .str b.exclude_schema, .num b.parallel, .flag b.quiet, .flag b.skip_locked,
   .str b.table, .flag b.verbose, .flag b.version, .flag b.analyze,
   .flag b.analyze_only, .flag b.analyze_in_stages, .flag b.help, .str b.host,
   .num b.port, .str b.username, .flag b.no_password, .flag b.password,
   .str b.maintenance_db]

/-- Value a setter call stores into the field it names: `some v` for valued
setters, `true` for flag setters. -/
def callValue : SetterCall → FieldValue
  | .program_dir p => .str (some p)
  | .all => .flag true
  | .buffer_usage_limit v => .str (some v)
  | .dbname v => .str (some v)
  | .disable_page_skipping => .flag true
  | .echo => .flag true
  | .full => .flag true
  | .freeze => .flag true
  | .force_index_cleanup => .flag true
  | .jobs v => .num (some v)
  | .min_mxid_age v => .str (some v)
  | .min_xid_age v => .str (some v)
  | .no_index_cleanup => .flag true
  | .no_process_main => .flag true
  | .no_process_toast => .flag true
  | .no_truncate => .flag true
  | .schema v => .str (some v)
  | .exclude_schema v => .str (some v)
  | .parallel v => .num (some v)
  | .quiet => .flag true
  | .skip_locked => .flag true
  | .table v => .str (some v)
  | .verbose => .flag true
  | .version => .flag true
  | .analyze => .flag true
  | .analyze_only => .flag true
  | .analyze_in_stages => .flag true
  | .help => .flag true
  | .host v => .str (some v)
  | .port v => .num (some v)
  | .username v => .str (some v)
  | .no_password => .flag true
  | .password => .flag true
  | .maintenance_db v => .str (some v)

/-- Value carried by a setter call when it is a `program_dir` call, `none`
otherwise. -/
def callPD : SetterCall → Option String
  | .program_dir p => some p
  | _ => none

/-- Value of the LAST `program_dir` call in a setter-call sequence, `none`
when the sequence contains no `program_dir` call.  Calls are applied head
first, so later list elements win. -/
def lastPD : List SetterCall → Option String
  | [] => none
  | c :: s =>
    match lastPD s with
    | some p => some p
    | none => callPD c

/-- One fluent setter invocation on `PgTestTimingBuilder`. -/
inductive PgSetterCall where
  | program_dir (p : String)
  | duration (v : String)
deriving DecidableEq

/-- Applies one setter call to a `PgTestTimingBuilder`. -/
def pgApplyCall : PgSetterCall → PgTestTimingBuilder → PgTestTimingBuilder
  | .program_dir p, b => b.program_dir' p
  | .duration v, b => b.duration' v

/-- Applies a sequence of `PgTestTimingBuilder` setter calls, head first. -/
def pgApplyCalls (b : PgTestTimingBuilder) (s : List PgSetterCall) : PgTestTimingBuilder :=
  s.foldl (fun b c => pgApplyCall c b) b

/-- Index of the field a `PgTestTimingBuilder` setter call writes. -/
def pgCallIndex : PgSetterCall → Nat
  | .program_dir _ => 0
  | .duration _ => 1

/-- Both fields of a `PgTestTimingBuilder`, in struct declaration order. -/
def pgFieldsList (b : PgTestTimingBuilder) : List FieldValue :=
  [.str b.program_dir, .str b.duration]

/-- Value a `PgTestTimingBuilder` setter call stores. -/
def pgCallValue : PgSetterCall → FieldValue
  | .program_dir p => .str (some p)
  | .duration v => .str (some v)

/-- Value carried by a `PgTestTimingBuilder` setter call when it is a
`program_dir` call, `none` otherwise. -/
def pgCallPD : PgSetterCall → Option String
  | .program_dir p => some p
  | _ => none

/-- Value of the LAST `program_dir` call in a `PgTestTimingBuilder`
setter-call sequence. -/
def pgLastPD : List PgSetterCall → Option String
  | [] => none
  | c :: s =>
    match pgLastPD s with
    | some p => some p
    | none => pgCallPD c

/-- Counts a boolean option: 1 when set, 0 when unset. -/
def countFlag (b : Bool) : Nat :=
  if b then 1 else 0

/-- Counts an optional valued option: 1 when configured, 0 when absent. -/
def countOpt {α : Type} (o : Option α) : Nat :=
  match o with
  | some _ => 1
  | none => 0

/-- Number of boolean flags set on a `VacuumDbBuilder`, taken over the 20
flag options `get_args` inspects. -/
def numFlagsSet (b : VacuumDbBuilder) : Nat :=
  countFlag b.all + countFlag b.disable_page_skipping + countFlag b.echo
    + countFlag b.full + countFlag b.freeze + countFlag b.force_index_cleanup
    + countFlag b.no_index_cleanup + countFlag b.no_process_main
    + countFlag b.no_process_toast + countFlag b.no_truncate + countFlag b.quiet
    + countFlag b.skip_locked + countFlag b.verbose + countFlag b.version
    + countFlag b.analyze + countFlag b.analyze_only
    + countFlag b.analyze_in_stages + countFlag b.help + countFlag b.no_password
    + countFlag b.password

/-- Number of valued options configured on a `VacuumDbBuilder`, taken over
the 13 valued options `get_args` inspects (`program_dir` is not one). -/
def numValuedSet (b : VacuumDbBuilder) : Nat :=
  countOpt b.buffer_usage_limit + countOpt b.dbname + countOpt b.jobs
    + countOpt b.min_mxid_age + countOpt b.min_xid_age + countOpt b.schema
    + countOpt b.exclude_schema + countOpt b.parallel + countOpt b.table
    + countOpt b.host + countOpt b.port + countOpt b.username
    + countOpt b.maintenance_db

/-- Any setter call writes exactly its own field: the field list of the
result is the field list of the input with the call's index overwritten by
the call's value. -/
lemma fieldsList_applyCall (c : SetterCall) (b : VacuumDbBuilder) :
    fieldsList (applyCall c b) = (fieldsList b).set (callIndex c) (callValue c) := by
  cases c <;> rfl

/-- A `VacuumDbBuilder` is determined by its field list. -/
lemma fieldsList_inj {b1 b2 : VacuumDbBuilder} (h : fieldsList b1 = fieldsList b2) :
    b1 = b2 := by
  cases b1
  cases b2
  simp only [fieldsList, List.cons.injEq, FieldValue.str.injEq, FieldValue.flag.injEq,
    FieldValue.num.injEq, and_true] at h
  obtain ⟨h0, h1, h2, h3, h4, h5, h6, h7, h8, h9, h10, h11, h12, h13, h14, h15, h16,
    h17, h18, h19, h20, h21, h22, h23, h24, h25, h26, h27, h28, h29, h30, h31, h32,
    h33⟩ := h
  subst h0 h1 h2 h3 h4 h5 h6 h7 h8 h9 h10 h11 h12 h13 h14 h15 h16 h17 h18 h19 h20
  subst h21 h22 h23 h24 h25 h26 h27 h28 h29 h30 h31 h32 h33
  rfl

/-- Setter calls on distinct fields commute. -/
lemma applyCall_comm {c1 c2 : SetterCall} (h : callIndex c1 ≠ callIndex c2)
    (b : VacuumDbBuilder) :
    applyCall c2 (applyCall c1 b) = applyCall c1 (applyCall c2 b) := by
  apply fieldsList_inj
  rw [fieldsList_applyCall, fieldsList_applyCall, fieldsList_applyCall,
    fieldsList_applyCall, List.set_comm _ _ _ h]

/-- A later setter call on the same field overwrites an earlier one. -/
lemma applyCall_overwrite {c1 c2 : SetterCall} (h : callIndex c1 = callIndex c2)
    (b : VacuumDbBuilder) :
    applyCall c2 (applyCall c1 b) = applyCall c2 b := by
  apply fieldsList_inj
  rw [fieldsList_applyCall, fieldsList_applyCall, fieldsList_applyCall, h,
    List.set_set]

/-- Applying a permutation of a setter-call sequence whose calls touch
pairwise distinct fields (or are equal) yields the same builder. -/
lemma applyCalls_perm {s1 s2 : List SetterCall} (hp : s1.Perm s2)
    (hc : ∀ c1 ∈ s1, ∀ c2 ∈ s1, c1 = c2 ∨ callIndex c1 ≠ callIndex c2)
    (b : VacuumDbBuilder) : applyCalls b s1 = applyCalls b s2 := by
  refine List.Perm.foldl_eq' hp ?_ b
  intro x hx y hy z
  rcases hc x hx y hy with h | h
  · rw [h]
  · exact applyCall_comm h z

/-- A sequence with no `program_dir` call has no last `program_dir` value. -/
lemma lastPD_eq_none {s : List SetterCall} (h : ∀ p, SetterCall.program_dir p ∉ s) :
    lastPD s = none := by
  induction s with
  | nil => rfl
  | cons c s ih =>
    have hs : ∀ p, SetterCall.program_dir p ∉ s := by
      intro p hp
      exact h p (List.mem_cons_of_mem c hp)
    have hc : ∀ p, c ≠ SetterCall.program_dir p := by
      intro p hp
      exact h p (hp ▸ List.mem_cons_self c s)
    rw [lastPD, ih hs]
    cases c with
    | program_dir p => exact absurd rfl (hc p)
    | all => rfl
    | buffer_usage_limit v => rfl
    | dbname v => rfl
    | disable_page_skipping => rfl
    | echo => rfl
    | full => rfl
    | freeze => rfl
    | force_index_cleanup => rfl
    | jobs v => rfl
    | min_mxid_age v => rfl
    | min_xid_age v => rfl
    | no_index_cleanup => rfl
    | no_process_main => rfl
    | no_process_toast => rfl
    | no_truncate => rfl
    | schema v => rfl
    | exclude_schema v => rfl
    | parallel v => rfl
    | quiet => rfl
    | skip_locked => rfl
    | table v => rfl
    | verbose => rfl
    | version => rfl
    | analyze => rfl
    | analyze_only => rfl
    | analyze_in_stages => rfl
    | help => rfl
    | host v => rfl
    | port v => rfl
    | username v => rfl
    | no_password => rfl
    | password => rfl
    | maintenance_db v => rfl

/-- The program_dir field after a call chain is the value of the last
`program_dir` call, or the starting value when there was none. -/
lemma applyCalls_program_dir (s : List SetterCall) (b : VacuumDbBuilder) :
    (applyCalls b s).program_dir =
      match lastPD s with
      | some p => some p
      | none => b.program_dir := by
  induction s generalizing b with
  | nil => rfl
  | cons c s ih =>
    show (applyCalls (applyCall c b) s).program_dir = _
    rw [ih (applyCall c b), lastPD]
    cases hs : lastPD s with
    | some p => rfl
    | none => cases c <;> rfl

/-- The `PgTestTimingBuilder` analogue of `applyCalls_program_dir`. -/
lemma pgApplyCalls_program_dir (s : List PgSetterCall) (b : PgTestTimingBuilder) :
    (pgApplyCalls b s).program_dir =
      match pgLastPD s with
      | some p => some p
      | none => b.program_dir := by
  induction s generalizing b with
  | nil => rfl
  | cons c s ih =>
    show (pgApplyCalls (pgApplyCall c b) s).program_dir = _
    rw [ih (pgApplyCall c b), pgLastPD]
    cases hs : pgLastPD s with
    | some p => rfl
    | none => cases c <;> rfl

/-- A sublist of the right part of an append is a sublist of the whole. -/
lemma sublist_skip {α : Type} (a : List α) {x r : List α} (h : List.Sublist x r) :
    List.Sublist x (a ++ r) :=
  h.trans (List.sublist_append_right a r)

/-- A sublist of the left part of an append is a sublist of the whole. -/
lemma sublist_keep {α : Type} (a : List α) {x l : List α} (h : List.Sublist x l) :
    List.Sublist x (l ++ a) :=
  h.trans (List.sublist_append_left l a)

/-- A `VacuumDbBuilder` has 34 fields. -/
lemma fieldsList_length (b : VacuumDbBuilder) : (fieldsList b).length = 34 :=
  rfl

/-- A `PgTestTimingBuilder` has 2 fields. -/
lemma pgFieldsList_length (b : PgTestTimingBuilder) : (pgFieldsList b).length = 2 :=
  rfl

/-- Length of a boolean-option segment. -/
lemma flagArgs_length (b : Bool) (f : String) : (flagArgs b f).length = countFlag b := by
  cases b <;> rfl

/-- Length of a string-valued-option segment. -/
lemma optArgs_length (o : Option String) (f : String) :
    (optArgs o f).length = 2 * countOpt o := by
  cases o <;> rfl

/-- Length of a numeric-option segment. -/
lemma natArgs_length (o : Option Nat) (f : String) :
    (natArgs o f).length = 2 * countOpt o := by
  cases o <;> rfl

/-- Claim C1: for every configuration of a utility builder (VacuumDbBuilder
or PgTestTimingBuilder), get_args is a pure, deterministic function of the
explicitly configured options: it performs no I/O (it is a total function in
this embedding), repeated calls on the same configuration value return
identical argument sequences, and on the spec's example the documented fixed
order holds. -/
theorem claim_C1 :
    (∀ b1 b2 : VacuumDbBuilder, b1 = b2 → b1.get_args = b2.get_args)
    ∧ (∀ b1 b2 : PgTestTimingBuilder, b1 = b2 → b1.get_args = b2.get_args)
    ∧ ((VacuumDbBuilder.new.all'.jobs' 1).port' 5432).get_args
        = ["--all", "--jobs", "1", "--port", "5432"]
    ∧ (PgTestTimingBuilder.new.duration' ("10")).get_args = ["-d", "10"] :=
  ⟨fun _ _ h => by rw [h], fun _ _ h => by rw [h], rfl, rfl⟩

/-- Witness for C1 at a concrete configuration. -/
theorem claim_C1_witness :
    VacuumDbBuilder.new.get_args = VacuumDbBuilder.new.get_args
    ∧ PgTestTimingBuilder.new.get_args = PgTestTimingBuilder.new.get_args :=
  ⟨claim_C1.1 VacuumDbBuilder.new VacuumDbBuilder.new rfl,
   claim_C1.2.1 PgTestTimingBuilder.new PgTestTimingBuilder.new rfl⟩

/-- Claim C3: get_args emits only options that were explicitly configured
and nothing for absent ones: a fresh builder returns an empty argument list,
and every unset Option field or false boolean field contributes an empty
segment to the output. -/
theorem claim_C3 :
    VacuumDbBuilder.new.get_args = []
    ∧ PgTestTimingBuilder.new.get_args = []
    ∧ (∀ f : String, flagArgs false f = [])
    ∧ (∀ f : String, optArgs none f = [])
    ∧ (∀ f : String, natArgs none f = []) :=
  ⟨rfl, rfl, fun _ => rfl, fun _ => rfl, fun _ => rfl⟩

/-- Claim C5: get_program is a constant per variant, independent of the
configuration: "vacuumdb" for every VacuumDbBuilder and "pg_test_timing" for
every PgTestTimingBuilder. -/
theorem claim_C5 :
    (∀ b : VacuumDbBuilder, b.get_program = "vacuumdb")
    ∧ (∀ b : PgTestTimingBuilder, b.get_program = "pg_test_timing") :=
  ⟨fun _ => rfl, fun _ => rfl⟩

/-- Claim C9: the program_dir option never leaks into the argument list: any
two builder values that agree on every field except program_dir produce equal
get_args results. -/
theorem claim_C9 :
    (∀ b1 b2 : VacuumDbBuilder, { b1 with program_dir := b2.program_dir } = b2 →
        b1.get_args = b2.get_args)
    ∧ (∀ b1 b2 : PgTestTimingBuilder, { b1 with program_dir := b2.program_dir } = b2 →
        b1.get_args = b2.get_args) := by
  constructor
  · intro b1 b2 h
    rw [← h]
    exact rfl
  · intro b1 b2 h
    rw [← h]
    exact rfl

/-- Witness for C9: overriding program_dir on a fresh builder leaves the
argument list unchanged. -/
theorem claim_C9_witness :
    (VacuumDbBuilder.new.program_dir' ("/x")).get_args = VacuumDbBuilder.new.get_args
    ∧ (PgTestTimingBuilder.new.program_dir' ("/x")).get_args
        = PgTestTimingBuilder.new.get_args :=
  ⟨claim_C9.1 _ _ rfl, claim_C9.2 _ _ rfl⟩

/-- Claim C2: the relative order of arguments emitted by
VacuumDbBuilder::get_args depends only on which options are set, never on the
order of the fluent setter calls: permuting a call sequence whose calls set
pairwise distinct options leaves get_args unchanged, and any call order of
all(), jobs(1), port(5432) yields "--all" before "--jobs" before "--port". -/
theorem claim_C2 :
    (∀ s1 s2 : List SetterCall, s1.Perm s2 →
        (∀ c1 ∈ s1, ∀ c2 ∈ s1, c1 = c2 ∨ callIndex c1 ≠ callIndex c2) →
        (applyCalls VacuumDbBuilder.new s1).get_args
          = (applyCalls VacuumDbBuilder.new s2).get_args)
    ∧ (∀ s : List SetterCall,
        s.Perm [SetterCall.all, SetterCall.jobs 1, SetterCall.port 5432] →
        (applyCalls VacuumDbBuilder.new s).get_args
          = ["--all", "--jobs", "1", "--port", "5432"]) := by
  constructor
  · intro s1 s2 hp hc
    rw [applyCalls_perm hp hc]
  · intro s hp
    have hc : ∀ c1 ∈ s, ∀ c2 ∈ s, c1 = c2 ∨ callIndex c1 ≠ callIndex c2 := by
      intro c1 h1 c2 h2
      have m1 := hp.mem_iff.mp h1
      have m2 := hp.mem_iff.mp h2
      simp only [List.mem_cons, List.not_mem_nil, or_false] at m1 m2
      rcases m1 with h | h | h <;> rcases m2 with h' | h' | h' <;> subst h <;> subst h' <;>
        decide
    rw [applyCalls_perm hp hc]
    rfl

/-- Witness for C2: a permuted call order produces the documented fixed
argument order. -/
theorem claim_C2_witness :
    (applyCalls VacuumDbBuilder.new
        [SetterCall.port 5432, SetterCall.all, SetterCall.jobs 1]).get_args
      = ["--all", "--jobs", "1", "--port", "5432"] :=
  claim_C2.2 _ (by decide)

/-- Claim C4: the builder does not validate mutually exclusive options: when
both no_password and password have been set, get_args still succeeds (it is a
total function here) and its result contains both "--no-password" and
"--password". -/
theorem claim_C4 (b : VacuumDbBuilder) (h1 : b.no_password = true)
    (h2 : b.password = true) :
    ("--no-password") ∈ b.get_args ∧ ("--password") ∈ b.get_args := by
  constructor
  · have hs : List.Sublist ["--no-password"] b.get_args := by
      rw [VacuumDbBuilder.get_args]
      iterate 2 apply sublist_keep
      apply sublist_skip
      rw [h1]
      exact List.Sublist.refl _
    exact hs.subset (List.mem_singleton_self _)
  · have hs : List.Sublist ["--password"] b.get_args := by
      rw [VacuumDbBuilder.get_args]
      iterate 1 apply sublist_keep
      apply sublist_skip
      rw [h2]
      exact List.Sublist.refl _
    exact hs.subset (List.mem_singleton_self _)

/-- Witness for C4 on a builder with both password options set. -/
theorem claim_C4_witness :
    ("--no-password") ∈ (VacuumDbBuilder.new.no_password'.password').get_args
    ∧ ("--password") ∈ (VacuumDbBuilder.new.no_password'.password').get_args :=
  claim_C4 _ rfl rfl

/-- Claim C6: each fluent setter configures exactly one option and returns a
new configured value: the field list of the result is the input's field list
with precisely the named field overwritten by the supplied value (or true for
flag setters), the index lying inside the field list. -/
theorem claim_C6 :
    (∀ (c : SetterCall) (b : VacuumDbBuilder),
        callIndex c < (fieldsList b).length
        ∧ fieldsList (applyCall c b) = (fieldsList b).set (callIndex c) (callValue c))
    ∧ (∀ (c : PgSetterCall) (b : PgTestTimingBuilder),
        pgCallIndex c < (pgFieldsList b).length
        ∧ pgFieldsList (pgApplyCall c b)
            = (pgFieldsList b).set (pgCallIndex c) (pgCallValue c)) := by
  constructor
  · intro c b
    refine ⟨?_, fieldsList_applyCall c b⟩
    rw [fieldsList_length]
    cases c <;> simp [callIndex]
  · intro c b
    refine ⟨?_, ?_⟩
    · rw [pgFieldsList_length]
      cases c <;> simp [pgCallIndex]
    · cases c <;> rfl

/-- Claim C7: get_program_dir returns the directory override exactly when one
was configured: for any fluent call chain from new it returns none when
program_dir was never called and some p when program_dir(p) was the last
program_dir call. -/
theorem claim_C7 :
    (∀ s : List SetterCall,
        (applyCalls VacuumDbBuilder.new s).get_program_dir = lastPD s)
    ∧ (∀ s : List SetterCall, (∀ p, SetterCall.program_dir p ∉ s) →
        (applyCalls VacuumDbBuilder.new s).get_program_dir = none)
    ∧ (∀ (s t : List SetterCall) (p : String),
        (∀ q, SetterCall.program_dir q ∉ t) →
        (applyCalls VacuumDbBuilder.new
            (s ++ SetterCall.program_dir p :: t)).get_program_dir = some p)
    ∧ (∀ s : List PgSetterCall,
        (pgApplyCalls PgTestTimingBuilder.new s).get_program_dir = pgLastPD s) := by
  have key : ∀ s : List SetterCall,
      (applyCalls VacuumDbBuilder.new s).get_program_dir = lastPD s := by
    intro s
    rw [VacuumDbBuilder.get_program_dir, applyCalls_program_dir]
    cases lastPD s <;> rfl
  have keyAppend : ∀ (s t : List SetterCall) (p : String),
      (∀ q, SetterCall.program_dir q ∉ t) →
      lastPD (s ++ SetterCall.program_dir p :: t) = some p := by
    intro s t p h
    induction s with
    | nil =>
      rw [List.nil_append, lastPD, lastPD_eq_none h]
      rfl
    | cons c s ih =>
      rw [List.cons_append, lastPD, ih]
  refine ⟨key, ?_, ?_, ?_⟩
  · intro s h
    rw [key, lastPD_eq_none h]
  · intro s t p h
    rw [key, keyAppend s t p h]
  · intro s
    rw [PgTestTimingBuilder.get_program_dir, pgApplyCalls_program_dir]
    cases pgLastPD s <;> rfl

/-- Witness for C7 at concrete call chains. -/
theorem claim_C7_witness :
    (applyCalls VacuumDbBuilder.new [SetterCall.all]).get_program_dir
        = lastPD [SetterCall.all]
    ∧ (applyCalls VacuumDbBuilder.new [SetterCall.all]).get_program_dir = none
    ∧ (applyCalls VacuumDbBuilder.new
          ([SetterCall.port 5432] ++ SetterCall.program_dir ("/x")
            :: [SetterCall.all])).get_program_dir = some ("/x")
    ∧ (pgApplyCalls PgTestTimingBuilder.new
          [PgSetterCall.duration ("10")]).get_program_dir
        = pgLastPD [PgSetterCall.duration ("10")] :=
  ⟨claim_C7.1 _,
   claim_C7.2.1 _ (by intro p hp; simp at hp),
   claim_C7.2.2.1 _ _ _ (by intro q hq; simp at hq),
   claim_C7.2.2.2 _⟩

/-- Claim C8: setter application is idempotent for flag options and
last-write-wins for valued options: two consecutive setter calls on the same
field leave exactly the state of the later call. -/
theorem claim_C8 :
    (∀ (c1 c2 : SetterCall) (b : VacuumDbBuilder),
        callIndex c1 = callIndex c2 →
        applyCall c2 (applyCall c1 b) = applyCall c2 b)
    ∧ (∀ (c1 c2 : PgSetterCall) (b : PgTestTimingBuilder),
        pgCallIndex c1 = pgCallIndex c2 →
        pgApplyCall c2 (pgApplyCall c1 b) = pgApplyCall c2 b) := by
  constructor
  · intro c1 c2 b h
    exact applyCall_overwrite h b
  · intro c1 c2 b h
    cases c1 <;> cases c2 <;> first | rfl | simp [pgCallIndex] at h

/-- Witness for C8: doubled flag setter, doubled valued setter, and the
pg_test_timing duration setter. -/
theorem claim_C8_witness :
    applyCall (SetterCall.dbname ("b"))
        (applyCall (SetterCall.dbname ("a")) VacuumDbBuilder.new)
      = applyCall (SetterCall.dbname ("b")) VacuumDbBuilder.new
    ∧ applyCall SetterCall.all (applyCall SetterCall.all VacuumDbBuilder.new)
      = applyCall SetterCall.all VacuumDbBuilder.new
    ∧ pgApplyCall (PgSetterCall.duration ("2"))
        (pgApplyCall (PgSetterCall.duration ("1")) PgTestTimingBuilder.new)
      = pgApplyCall (PgSetterCall.duration ("2")) PgTestTimingBuilder.new :=
  ⟨claim_C8.1 _ _ _ rfl, claim_C8.1 _ _ _ rfl, claim_C8.2 _ _ _ rfl⟩

/-- Claim C10: each valued option contributes its flag immediately followed
by one value element and each set boolean flag one element, so get_args has
length numFlagsSet + 2 * numValuedSet; the numeric options jobs, parallel and
port are rendered in decimal (Nat.repr). -/
theorem claim_C10 (b : VacuumDbBuilder) :
    b.get_args.length = numFlagsSet b + 2 * numValuedSet b
    ∧ (∀ n, b.jobs = some n → List.Sublist ["--jobs", Nat.repr n] b.get_args)
    ∧ (∀ n, b.parallel = some n →
        List.Sublist ["--parallel", Nat.repr n] b.get_args)
    ∧ (∀ n, b.port = some n → List.Sublist ["--port", Nat.repr n] b.get_args) := by
  refine ⟨?_, ?_, ?_, ?_⟩
  · simp only [VacuumDbBuilder.get_args, List.length_append, flagArgs_length,
      optArgs_length, natArgs_length, numFlagsSet, numValuedSet]
    ring
  · intro n h
    rw [VacuumDbBuilder.get_args]
    iterate 24 apply sublist_keep
    apply sublist_skip
    rw [h]
    exact List.Sublist.refl _
  · intro n h
    rw [VacuumDbBuilder.get_args]
    iterate 15 apply sublist_keep
    apply sublist_skip
    rw [h]
    exact List.Sublist.refl _
  · intro n h
    rw [VacuumDbBuilder.get_args]
    iterate 4 apply sublist_keep
    apply sublist_skip
    rw [h]
    exact List.Sublist.refl _

/-- Witness for C10 on a builder with jobs and port configured. -/
theorem claim_C10_witness :
    ((VacuumDbBuilder.new.jobs' 2).port' 65535).get_args.length
        = numFlagsSet ((VacuumDbBuilder.new.jobs' 2).port' 65535)
          + 2 * numValuedSet ((VacuumDbBuilder.new.jobs' 2).port' 65535)
    ∧ List.Sublist ["--jobs", Nat.repr 2]
        ((VacuumDbBuilder.new.jobs' 2).port' 65535).get_args
    ∧ List.Sublist ["--port", Nat.repr 65535]
        ((VacuumDbBuilder.new.jobs' 2).port' 65535).get_args :=
  ⟨(claim_C10 _).1, (claim_C10 _).2.1 2 rfl, (claim_C10 _).2.2.2 65535 rfl⟩

end PostgresqlEmbedded
